import Mathlib

/-!
Shallow embedding of the logger/exporter composition subsystem from
src/config.rs (impl LoggerExt for LoggerConfig) of the otlp-tracing
repository.

Side effects (spawning a background writer thread per non-blocking sink,
initializing the prometheus metrics registry, attempting the batched OTLP
exporter install, installing the global subscriber) are modelled by
explicit state passing over a `World` record.  Fallible Rust functions
returning `Result` become Lean functions returning `Except LoggerError`.
The outcome of the OTLP `install_batch` call (which depends on the runtime
and the network) is an input, `OtlpEnv`.
-/

namespace OtlpTracing

/-- tracing::Level, the severity of an event / the configured minimum. -/
inductive Level where
  | TRACE | DEBUG | INFO | WARN | ERROR
deriving DecidableEq, Repr

/-- Numeric severity: ERROR is most severe.  `LevelFilter::from_level l`
lets an event of level `e` through iff `sev e ≥ sev l`. -/
def Level.sev : Level → Nat
  | .TRACE => 0
  | .DEBUG => 1
  | .INFO => 2
  | .WARN => 3
  | .ERROR => 4

/-- FileSinkConfig (`self.file` in config.rs): fields as read by
init_file_rotate and non_blocking_file_writer. -/
structure FileConfig where
  enabled : Bool
  log_file : Option String
  log_size : Nat
  log_amount : Nat
deriving DecidableEq, Repr

/-- StdoutSinkConfig (`self.stdout` in config.rs). -/
structure StdoutConfig where
  enabled : Bool
deriving DecidableEq, Repr

/-- LoggerConfig: the configuration record consumed by init_logger. -/
structure LoggerConfig where
  trace_level : Level
  file : Option FileConfig
  stdout : Option StdoutConfig
deriving DecidableEq, Repr

/-- LoggerError from config.rs. -/
inductive LoggerError where
  | EmptyConfig
  | NoFileName
  | NotEnabled
  | OLTPInitFailed
deriving DecidableEq, Repr

/-- file_rotate::suffix::FileLimit — only MaxFiles is used. -/
inductive FileLimit where
  | MaxFiles (n : Nat)
deriving DecidableEq, Repr

/-- file_rotate::suffix::AppendTimestamp — carries its file limit. -/
structure AppendTimestamp where
  fileLimit : FileLimit
deriving DecidableEq, Repr

/-- file_rotate::ContentLimit — only BytesSurpassed is used. -/
inductive ContentLimit where
  | BytesSurpassed (n : Nat)
deriving DecidableEq, Repr

/-- file_rotate::compression::Compression. -/
inductive Compression where
  | NoCompression
  | OnRotate (filesToKeepUncompressed : Nat)
deriving DecidableEq, Repr

/-- The policy parameters with which FileRotate::new is called: the
rotating stream abstraction, as configured by this subsystem. -/
structure FileRotate where
  path : String
  suffix : AppendTimestamp
  contentLimit : ContentLimit
  compression : Compression
  mode : Option Nat
deriving DecidableEq, Repr

/-- The destination wrapped by a non-blocking adapter: the rotating file
stream, or the standard output. -/
inductive Writer where
  | file (fr : FileRotate)
  | stdout
deriving DecidableEq, Repr

/-- tracing_appender::non_blocking::NonBlocking, modelled by the writer it
wraps. -/
structure NonBlocking where
  writer : Writer
deriving DecidableEq, Repr

/-- tracing_appender::non_blocking::WorkerGuard: the lifetime guard paired
with one non-blocking writer. -/
structure WorkerGuard where
  writer : Writer
deriving DecidableEq, Repr

/-- The trace-exporter pipeline configuration hard-coded in init_metrics. -/
structure PipelineConfig where
  endpoint : String
  serviceName : String
deriving DecidableEq, Repr

/-- opentelemetry_sdk::trace::Tracer, modelled by the pipeline
configuration it was installed from. -/
structure Tracer where
  pipeline : PipelineConfig
deriving DecidableEq, Repr

/-- tracing_opentelemetry OpenTelemetryLayer carrying its tracer. -/
structure OpenTelemetryLayer where
  tracer : Tracer
deriving DecidableEq, Repr

/-- One layer of the composed dispatch chain: a fmt layer writing to one
sink behind a severity filter, or the appended exporter layer. -/
inductive Layer where
  | fmt (writer : Writer) (filterLevel : Level)
  | otel (l : OpenTelemetryLayer)
deriving DecidableEq, Repr

/-- Observable side effects of the subsystem: background writer threads
spawned by tracing_appender::non_blocking, the prometheus registry init,
the OTLP install attempt, and the globally installed subscriber chain. -/
structure World where
  threadsSpawned : Nat
  metricsInited : Bool
  exporterInstallAttempted : Bool
  subscriberInstalled : Option (List Layer)
deriving DecidableEq, Repr

/-- Environment input deciding whether the OTLP batched pipeline install
(install_batch, a runtime/network effect) succeeds. -/
structure OtlpEnv where
  installOk : Bool
deriving DecidableEq, Repr

/-- tracing_appender::non_blocking: wraps a writer, spawning one dedicated
background worker thread, and returns the paired guard. -/
def non_blocking (wr : Writer) (w : World) :
    (NonBlocking × WorkerGuard) × World :=
  ((⟨wr⟩, ⟨wr⟩), { w with threadsSpawned := w.threadsSpawned + 1 })

/-- LoggerConfig::init_file_rotate from config.rs lines 104-118. -/
def init_file_rotate (c : LoggerConfig) : Except LoggerError FileRotate :=
  match c.file with
  | none => .error .EmptyConfig
  | some config =>
    match config.log_file with
    | none => .error .NoFileName
    | some log_file =>
      if log_file.isEmpty then
        .error .NoFileName
      else
        .ok { path := log_file
              suffix := ⟨.MaxFiles config.log_amount⟩
              contentLimit := .BytesSurpassed config.log_size
              compression := .OnRotate 1
              mode := none }

/-- LoggerConfig::non_blocking_file_writer from config.rs lines 120-131. -/
def non_blocking_file_writer (c : LoggerConfig) (w : World) :
    World × Except LoggerError (NonBlocking × WorkerGuard) :=
  match c.file with
  | none => (w, .error .EmptyConfig)
  | some config =>
    if config.enabled then
      match init_file_rotate c with
      | .error e => (w, .error e)
      | .ok fr =>
        let (pair, w1) := non_blocking (.file fr) w
        (w1, .ok pair)
    else
      (w, .error .NotEnabled)

/-- LoggerConfig::non_blocking_stdout_writer from config.rs lines 133-144. -/
def non_blocking_stdout_writer (c : LoggerConfig) (w : World) :
    World × Except LoggerError (NonBlocking × WorkerGuard) :=
  match c.stdout with
  | none => (w, .error .EmptyConfig)
  | some config =>
    if config.enabled then
      let (pair, w1) := non_blocking .stdout w
      (w1, .ok pair)
    else
      (w, .error .NotEnabled)

/-- disable_on_error from config.rs lines 185-195: soft errors
(NotEnabled, EmptyConfig) become an absent sink, others re-raise. -/
def disable_on_error (logger : Except LoggerError (NonBlocking × WorkerGuard)) :
    Except LoggerError (Option (NonBlocking × WorkerGuard)) :=
  match logger with
  | .ok writer => .ok (some writer)
  | .error e =>
    match e with
    | .NotEnabled => .ok none
    | .EmptyConfig => .ok none
    | _ => .error e

/-- LoggerConfig::init_metrics from config.rs lines 146-169: initializes
the prometheus registry, then attempts the batched OTLP pipeline install
against the hard-coded endpoint and service identity. -/
def init_metrics (env : OtlpEnv) (w : World) :
    World × Except LoggerError OpenTelemetryLayer :=
  let w1 := { w with metricsInited := true, exporterInstallAttempted := true }
  if env.installOk then
    (w1, .ok ⟨⟨⟨"http://localhost:4317", "bob"⟩⟩⟩)
  else
    (w1, .error .OLTPInitFailed)

/-- LoggerConfig::init_logger from config.rs lines 73-102. -/
def init_logger (env : OtlpEnv) (c : LoggerConfig) (w0 : World) :
    World × Except LoggerError (List WorkerGuard) :=
  let (w1, fileRes) := non_blocking_file_writer c w0
  match disable_on_error fileRes with
  | .error e => (w1, .error e)
  | .ok file_writer =>
    let (w2, stdoutRes) := non_blocking_stdout_writer c w1
    match disable_on_error stdoutRes with
    | .error e => (w2, .error e)
    | .ok stdout_writer =>
      let present := ([file_writer, stdout_writer].filterMap id)
      let guards := present.map (fun p => p.2)
      let layers := present.map (fun p => Layer.fmt p.1.writer c.trace_level)
      match layers with
      | [] => (w2, .ok guards)
      | _ :: _ =>
        let (w3, mRes) := init_metrics env w2
        match mRes with
        | .error _ => (w3, .error .OLTPInitFailed)
        | .ok otelLayer =>
          let chain := layers ++ [Layer.otel otelLayer]
          ({ w3 with subscriberInstalled := some chain }, .ok guards)

/-- The writers an event of the given level is forwarded to by the fmt
layers of an installed dispatch chain (each sub-layer filters
independently by its configured minimum severity). -/
def chainWrites (chain : List Layer) (e : Level) : List Writer :=
  chain.filterMap fun l =>
    match l with
    | .fmt wr filt => if filt.sev ≤ e.sev then some wr else none
    | .otel _ => none

/-- The file sink section is present, enabled, and has a usable path. -/
def fileSinkValid (c : LoggerConfig) : Bool :=
  match c.file with
  | some fc =>
    fc.enabled && (match fc.log_file with
                   | some lf => !lf.isEmpty
                   | none => false)
  | none => false

/-- The file sink section is absent or disabled (a soft error that
disable_on_error absorbs). -/
def fileSinkSoftAbsent (c : LoggerConfig) : Bool :=
  match c.file with
  | some fc => !fc.enabled
  | none => true

/-- The stdout sink section is present and enabled. -/
def stdoutSinkValid (c : LoggerConfig) : Bool :=
  match c.stdout with
  | some sc => sc.enabled
  | none => false

/-- The stdout sink section is absent or disabled. -/
def stdoutSinkSoftAbsent (c : LoggerConfig) : Bool :=
  match c.stdout with
  | some sc => !sc.enabled
  | none => true

/-- Number of sinks that will be successfully built. -/
def numValidSinks (c : LoggerConfig) : Nat :=
  (if fileSinkValid c then 1 else 0) + (if stdoutSinkValid c then 1 else 0)

/-- A quiescent starting world: no threads, nothing initialized. -/
def World.fresh : World :=
  { threadsSpawned := 0
    metricsInited := false
    exporterInstallAttempted := false
    subscriberInstalled := none }

/-- Number of guards carried by a successful result, none on error. -/
def guardCount : Except LoggerError (List WorkerGuard) → Option Nat
  | .ok gs => some gs.length
  | .error _ => none

/-- Helper: when both sink sections are absent or disabled, init_logger
is a no-op returning no guards. -/
theorem init_logger_soft_absent (env : OtlpEnv) (c : LoggerConfig) (w : World)
    (hf : fileSinkSoftAbsent c = true) (hs : stdoutSinkSoftAbsent c = true) :
    init_logger env c w = (w, .ok []) := by
  rcases c with ⟨tl, fo, so⟩
  rcases fo with _ | ⟨⟨fen, flf, fsz, famt⟩⟩
  · rcases so with _ | ⟨⟨sen⟩⟩
    · simp [init_logger, non_blocking_file_writer, non_blocking_stdout_writer,
        disable_on_error]
    · have h : sen = false := by simpa [stdoutSinkSoftAbsent] using hs
      subst h
      simp [init_logger, non_blocking_file_writer, non_blocking_stdout_writer,
        disable_on_error]
  · have h : fen = false := by simpa [fileSinkSoftAbsent] using hf
    subst h
    rcases so with _ | ⟨⟨sen⟩⟩
    · simp [init_logger, non_blocking_file_writer, non_blocking_stdout_writer,
        disable_on_error]
    · have h : sen = false := by simpa [stdoutSinkSoftAbsent] using hs
      subst h
      simp [init_logger, non_blocking_file_writer, non_blocking_stdout_writer,
        disable_on_error]

/-- C1: disable_on_error returns Ok (some handle) on success, Ok none on
the EmptyConfig and NotEnabled errors, and re-raises every other error
(NoFileName, OLTPInitFailed) as Err. -/
theorem disable_on_error_classification :
    (∀ nb g, disable_on_error (.ok (nb, g)) = .ok (some (nb, g)))
    ∧ disable_on_error (.error .EmptyConfig) = .ok none
    ∧ disable_on_error (.error .NotEnabled) = .ok none
    ∧ disable_on_error (.error .NoFileName) = .error .NoFileName
    ∧ disable_on_error (.error .OLTPInitFailed) = .error .OLTPInitFailed :=
  ⟨fun _ _ => rfl, rfl, rfl, rfl, rfl⟩

/-- C2: with the file sink section present and enabled but log_file
missing or the empty path, init_logger fails with NoFileName, returns no
guards, and leaves the world untouched. -/
theorem init_logger_no_filename (env : OtlpEnv) (tl : Level)
    (st : Option StdoutConfig) (lf : Option String) (sz amt : Nat) (w : World)
    (h : lf = none ∨ lf = some "") :
    init_logger env ⟨tl, some ⟨true, lf, sz, amt⟩, st⟩ w =
      (w, .error .NoFileName) := by
  rcases h with h | h <;> subst h <;>
    simp [init_logger, non_blocking_file_writer, init_file_rotate,
      disable_on_error, String.isEmpty]

/-- C2 witness: the spec scenario with enabled file sink and empty path. -/
theorem init_logger_no_filename_witness :
    init_logger ⟨true⟩ ⟨.INFO, some ⟨true, some "", 4096, 5⟩, none⟩ World.fresh
      = (World.fresh, .error .NoFileName) :=
  init_logger_no_filename ⟨true⟩ .INFO none (some "") 4096 5 World.fresh
    (Or.inr rfl)

/-- C3: with both sink sections absent or disabled, init_logger succeeds
with zero guards and leaves the world unchanged: no subscriber installed,
no background threads spawned. -/
theorem init_logger_both_absent (env : OtlpEnv) (c : LoggerConfig) (w : World)
    (hf : fileSinkSoftAbsent c = true) (hs : stdoutSinkSoftAbsent c = true) :
    init_logger env c w = (w, .ok []) :=
  init_logger_soft_absent env c w hf hs

/-- C3 witness: file section absent, stdout section disabled. -/
theorem init_logger_both_absent_witness :
    fileSinkSoftAbsent ⟨.INFO, none, some ⟨false⟩⟩ = true
    ∧ stdoutSinkSoftAbsent ⟨.INFO, none, some ⟨false⟩⟩ = true
    ∧ init_logger ⟨true⟩ ⟨.INFO, none, some ⟨false⟩⟩ World.fresh
        = (World.fresh, .ok []) :=
  ⟨rfl, rfl, init_logger_both_absent ⟨true⟩ ⟨.INFO, none, some ⟨false⟩⟩
    World.fresh rfl rfl⟩

/-- C5: each sink builder fails with EmptyConfig when its section is
absent and NotEnabled when the section is present but disabled; a present
and enabled stdout section always builds, spawning one worker thread. -/
theorem sink_builder_errors (tl : Level) (w : World) :
    (∀ st, (non_blocking_file_writer ⟨tl, none, st⟩ w).2 = .error .EmptyConfig)
    ∧ (∀ st lf sz amt,
        (non_blocking_file_writer ⟨tl, some ⟨false, lf, sz, amt⟩, st⟩ w).2
          = .error .NotEnabled)
    ∧ (∀ fc, (non_blocking_stdout_writer ⟨tl, fc, none⟩ w).2
          = .error .EmptyConfig)
    ∧ (∀ fc, (non_blocking_stdout_writer ⟨tl, fc, some ⟨false⟩⟩ w).2
          = .error .NotEnabled)
    ∧ (∀ fc, non_blocking_stdout_writer ⟨tl, fc, some ⟨true⟩⟩ w
          = ({ w with threadsSpawned := w.threadsSpawned + 1 },
             .ok (⟨.stdout⟩, ⟨.stdout⟩))) :=
  ⟨fun _ => rfl, fun _ _ _ _ => rfl, fun _ => rfl, fun _ => rfl, fun _ => rfl⟩

/-- C8: init_file_rotate passes exactly the configured policy parameters
to the rotating stream: the configured path, BytesSurpassed on log_size,
MaxFiles on log_amount, and compression on rotate. -/
theorem init_file_rotate_params (tl : Level) (en : Bool)
    (st : Option StdoutConfig) (lf : String) (sz amt : Nat)
    (h : lf.isEmpty = false) :
    init_file_rotate ⟨tl, some ⟨en, some lf, sz, amt⟩, st⟩ =
      .ok ⟨lf, ⟨.MaxFiles amt⟩, .BytesSurpassed sz, .OnRotate 1, none⟩ := by
  simp [init_file_rotate, h]

/-- C8 witness: a concrete file configuration. -/
theorem init_file_rotate_params_witness :
    String.isEmpty "bob.log" = false
    ∧ init_file_rotate ⟨.INFO, some ⟨true, some "bob.log", 4096, 5⟩, none⟩ =
        .ok ⟨"bob.log", ⟨.MaxFiles 5⟩, .BytesSurpassed 4096, .OnRotate 1, none⟩ :=
  ⟨rfl, init_file_rotate_params .INFO true none "bob.log" 4096 5 rfl⟩

/-- C9: with both sink sections absent or disabled, init_metrics is never
invoked: the metrics registry and the exporter stay untouched and
init_logger cannot fail with OLTPInitFailed. -/
theorem init_logger_both_absent_no_metrics (env : OtlpEnv) (c : LoggerConfig)
    (w : World) (hf : fileSinkSoftAbsent c = true)
    (hs : stdoutSinkSoftAbsent c = true) :
    (init_logger env c w).1.metricsInited = w.metricsInited
    ∧ (init_logger env c w).1.exporterInstallAttempted
        = w.exporterInstallAttempted
    ∧ (init_logger env c w).2 ≠ .error .OLTPInitFailed := by
  rw [init_logger_soft_absent env c w hf hs]
  simp

/-- C9 witness: the exporter environment fails, yet init_logger with both
sinks absent does not report OLTPInitFailed and touches nothing. -/
theorem init_logger_both_absent_no_metrics_witness :
    fileSinkSoftAbsent ⟨.INFO, some ⟨false, none, 0, 0⟩, none⟩ = true
    ∧ stdoutSinkSoftAbsent ⟨.INFO, some ⟨false, none, 0, 0⟩, none⟩ = true
    ∧ ((init_logger ⟨false⟩ ⟨.INFO, some ⟨false, none, 0, 0⟩, none⟩
          World.fresh).1.metricsInited = World.fresh.metricsInited
       ∧ (init_logger ⟨false⟩ ⟨.INFO, some ⟨false, none, 0, 0⟩, none⟩
          World.fresh).1.exporterInstallAttempted
            = World.fresh.exporterInstallAttempted
       ∧ (init_logger ⟨false⟩ ⟨.INFO, some ⟨false, none, 0, 0⟩, none⟩
          World.fresh).2 ≠ .error .OLTPInitFailed) :=
  ⟨rfl, rfl, init_logger_both_absent_no_metrics ⟨false⟩
    ⟨.INFO, some ⟨false, none, 0, 0⟩, none⟩ World.fresh rfl rfl⟩

/-- C10: a present but disabled file sink section yields NotEnabled
whatever log_file holds (missing or empty included), and disable_on_error
absorbs it into an absent sink instead of a NoFileName failure. -/
theorem disabled_file_sink_ignores_path (tl : Level)
    (st : Option StdoutConfig) (lf : Option String) (sz amt : Nat) (w : World) :
    non_blocking_file_writer ⟨tl, some ⟨false, lf, sz, amt⟩, st⟩ w
      = (w, .error .NotEnabled)
    ∧ disable_on_error
        (non_blocking_file_writer ⟨tl, some ⟨false, lf, sz, amt⟩, st⟩ w).2
      = .ok none :=
  ⟨rfl, rfl⟩

/-- C4: when each sink section is either validly configured or
absent/disabled and at least one sink is valid (in particular when both
are), failure of the trace-exporter install makes init_logger fail with
OLTPInitFailed. -/
theorem init_logger_otlp_failure (env : OtlpEnv) (c : LoggerConfig) (w : World)
    (h1 : fileSinkValid c = true ∨ fileSinkSoftAbsent c = true)
    (h3 : fileSinkValid c = true ∨ stdoutSinkValid c = true)
    (henv : env.installOk = false) :
    (init_logger env c w).2 = .error .OLTPInitFailed := by
  rcases env with ⟨ok⟩
  have hok : ok = false := henv
  subst hok
  rcases c with ⟨tl, fo, so⟩
  rcases fo with _ | ⟨⟨fen, flf, fsz, famt⟩⟩
  · have hs : stdoutSinkValid ⟨tl, none, so⟩ = true := by
      rcases h3 with h | h
      · simp [fileSinkValid] at h
      · exact h
    rcases so with _ | ⟨⟨sen⟩⟩
    · simp [stdoutSinkValid] at hs
    · have h : sen = true := by simpa [stdoutSinkValid] using hs
      subst h
      simp [init_logger, non_blocking_file_writer, non_blocking_stdout_writer,
        non_blocking, disable_on_error, init_metrics]
  · cases fen
    · have hs : stdoutSinkValid ⟨tl, some ⟨false, flf, fsz, famt⟩, so⟩ = true := by
        rcases h3 with h | h
        · simp [fileSinkValid] at h
        · exact h
      rcases so with _ | ⟨⟨sen⟩⟩
      · simp [stdoutSinkValid] at hs
      · have h : sen = true := by simpa [stdoutSinkValid] using hs
        subst h
        simp [init_logger, non_blocking_file_writer, non_blocking_stdout_writer,
          non_blocking, disable_on_error, init_metrics]
    · have hv : fileSinkValid ⟨tl, some ⟨true, flf, fsz, famt⟩, so⟩ = true := by
        rcases h1 with h | h
        · exact h
        · simp [fileSinkSoftAbsent] at h
      rcases flf with _ | lf
      · simp [fileSinkValid] at hv
      · have hlf : lf.isEmpty = false := by simpa [fileSinkValid] using hv
        rcases so with _ | ⟨⟨sen⟩⟩
        · simp [init_logger, non_blocking_file_writer, init_file_rotate,
            non_blocking_stdout_writer, non_blocking, disable_on_error,
            init_metrics, hlf]
        · cases sen <;>
            simp [init_logger, non_blocking_file_writer, init_file_rotate,
              non_blocking_stdout_writer, non_blocking, disable_on_error,
              init_metrics, hlf]

/-- C4 witness: both sinks validly configured, exporter install fails. -/
theorem init_logger_otlp_failure_witness :
    fileSinkValid ⟨.INFO, some ⟨true, some "bob.log", 4096, 5⟩, some ⟨true⟩⟩
        = true
    ∧ OtlpEnv.installOk ⟨false⟩ = false
    ∧ (init_logger ⟨false⟩
        ⟨.INFO, some ⟨true, some "bob.log", 4096, 5⟩, some ⟨true⟩⟩
        World.fresh).2 = .error .OLTPInitFailed :=
  ⟨rfl, rfl, init_logger_otlp_failure ⟨false⟩
    ⟨.INFO, some ⟨true, some "bob.log", 4096, 5⟩, some ⟨true⟩⟩
    World.fresh (Or.inl rfl) (Or.inl rfl) rfl⟩

/-- C6: the spec scenario trace_level INFO, file absent, stdout enabled:
init_logger succeeds with exactly one guard, and the installed dispatch
chain forwards an INFO event to the stdout writer but not a DEBUG event. -/
theorem init_logger_stdout_info_scenario (env : OtlpEnv) (w : World)
    (henv : env.installOk = true) :
    (init_logger env ⟨.INFO, none, some ⟨true⟩⟩ w).2 = .ok [⟨.stdout⟩]
    ∧ ∃ chain,
        (init_logger env ⟨.INFO, none, some ⟨true⟩⟩ w).1.subscriberInstalled
          = some chain
        ∧ Writer.stdout ∈ chainWrites chain .INFO
        ∧ Writer.stdout ∉ chainWrites chain .DEBUG := by
  rcases env with ⟨ok⟩
  have hok : ok = true := henv
  subst hok
  refine ⟨by simp [init_logger, non_blocking_file_writer,
      non_blocking_stdout_writer, non_blocking, disable_on_error, init_metrics],
    [Layer.fmt .stdout .INFO, Layer.otel ⟨⟨⟨"http://localhost:4317", "bob"⟩⟩⟩],
    by simp [init_logger, non_blocking_file_writer, non_blocking_stdout_writer,
      non_blocking, disable_on_error, init_metrics],
    by simp [chainWrites, Level.sev],
    by simp [chainWrites, Level.sev]⟩

/-- C6 witness: the scenario evaluated from a fresh world. -/
theorem init_logger_stdout_info_scenario_witness :
    OtlpEnv.installOk ⟨true⟩ = true
    ∧ ((init_logger ⟨true⟩ ⟨.INFO, none, some ⟨true⟩⟩ World.fresh).2
          = .ok [⟨.stdout⟩]
       ∧ ∃ chain,
          (init_logger ⟨true⟩ ⟨.INFO, none, some ⟨true⟩⟩
              World.fresh).1.subscriberInstalled = some chain
          ∧ Writer.stdout ∈ chainWrites chain .INFO
          ∧ Writer.stdout ∉ chainWrites chain .DEBUG) :=
  ⟨rfl, init_logger_stdout_info_scenario ⟨true⟩ World.fresh rfl⟩

/-- C7: when each sink section is valid, absent, or disabled and the
exporter install succeeds, init_logger returns exactly one guard per
successfully built sink (two when both are valid, one when exactly one
is), and spawns exactly one background writer thread per guard. -/
theorem init_logger_guard_count (env : OtlpEnv) (c : LoggerConfig) (w : World)
    (h1 : fileSinkValid c = true ∨ fileSinkSoftAbsent c = true)
    (henv : env.installOk = true) :
    guardCount (init_logger env c w).2 = some (numValidSinks c)
    ∧ (init_logger env c w).1.threadsSpawned
        = w.threadsSpawned + numValidSinks c := by
  rcases env with ⟨ok⟩
  have hok : ok = true := henv
  subst hok
  rcases c with ⟨tl, fo, so⟩
  rcases fo with _ | ⟨⟨fen, flf, fsz, famt⟩⟩
  · rcases so with _ | ⟨⟨sen⟩⟩
    · simp [init_logger, non_blocking_file_writer, non_blocking_stdout_writer,
        non_blocking, disable_on_error, init_metrics, guardCount,
        numValidSinks, fileSinkValid, stdoutSinkValid]
    · cases sen <;>
        simp [init_logger, non_blocking_file_writer, non_blocking_stdout_writer,
          non_blocking, disable_on_error, init_metrics, guardCount,
          numValidSinks, fileSinkValid, stdoutSinkValid]
  · cases fen
    · rcases so with _ | ⟨⟨sen⟩⟩
      · simp [init_logger, non_blocking_file_writer, non_blocking_stdout_writer,
          non_blocking, disable_on_error, init_metrics, guardCount,
          numValidSinks, fileSinkValid, stdoutSinkValid]
      · cases sen <;>
          simp [init_logger, non_blocking_file_writer,
            non_blocking_stdout_writer, non_blocking, disable_on_error,
            init_metrics, guardCount, numValidSinks, fileSinkValid,
            stdoutSinkValid]
    · have hv : fileSinkValid ⟨tl, some ⟨true, flf, fsz, famt⟩, so⟩ = true := by
        rcases h1 with h | h
        · exact h
        · simp [fileSinkSoftAbsent] at h
      rcases flf with _ | lf
      · simp [fileSinkValid] at hv
      · have hlf : lf.isEmpty = false := by simpa [fileSinkValid] using hv
        rcases so with _ | ⟨⟨sen⟩⟩
        · simp [init_logger, non_blocking_file_writer, init_file_rotate,
            non_blocking_stdout_writer, non_blocking, disable_on_error,
            init_metrics, guardCount, numValidSinks, fileSinkValid,
            stdoutSinkValid, hlf]
        · cases sen <;>
            simp [init_logger, non_blocking_file_writer, init_file_rotate,
              non_blocking_stdout_writer, non_blocking, disable_on_error,
              init_metrics, guardCount, numValidSinks, fileSinkValid,
              stdoutSinkValid, hlf]

/-- C7 witness: both sinks enabled and valid, exporter install succeeds:
two guards, two background writer threads. -/
theorem init_logger_guard_count_witness :
    (fileSinkValid ⟨.INFO, some ⟨true, some "app.log", 1024, 3⟩, some ⟨true⟩⟩
        = true)
    ∧ OtlpEnv.installOk ⟨true⟩ = true
    ∧ numValidSinks ⟨.INFO, some ⟨true, some "app.log", 1024, 3⟩, some ⟨true⟩⟩
        = 2
    ∧ (guardCount (init_logger ⟨true⟩
          ⟨.INFO, some ⟨true, some "app.log", 1024, 3⟩, some ⟨true⟩⟩
          World.fresh).2
        = some (numValidSinks
            ⟨.INFO, some ⟨true, some "app.log", 1024, 3⟩, some ⟨true⟩⟩)
       ∧ (init_logger ⟨true⟩
            ⟨.INFO, some ⟨true, some "app.log", 1024, 3⟩, some ⟨true⟩⟩
            World.fresh).1.threadsSpawned
          = World.fresh.threadsSpawned + numValidSinks
              ⟨.INFO, some ⟨true, some "app.log", 1024, 3⟩, some ⟨true⟩⟩) :=
  ⟨rfl, rfl, rfl, init_logger_guard_count ⟨true⟩
    ⟨.INFO, some ⟨true, some "app.log", 1024, 3⟩, some ⟨true⟩⟩
    World.fresh (Or.inl rfl) rfl⟩

end OtlpTracing
